import Mathlib

/-
  Verification of the run_maps repository.

  Shallow embedding of src/createmap.py (GPXMapGenerator and main) and
  src/overlay.py (overlay_images).  Latitudes, longitudes, distances and
  pixel channel values are modelled as exact rationals; file access, the
  gpxpy parser, the prettymaps renderer and PIL resampling are external
  collaborators and enter the model as explicit parameters with their
  documented contracts.
-/

/-- Python builtin min over a nonempty list, seeded with the head:
`min([x, xs...])` folds `min` over the tail starting from the head. -/
def pyMin (x : ℚ) (xs : List ℚ) : ℚ := xs.foldl min x

/-- Python builtin max over a nonempty list, seeded with the head. -/
def pyMax (x : ℚ) (xs : List ℚ) : ℚ := xs.foldl max x

/-- Embedding of `GPXMapGenerator.calculate_map_bounds` (src/createmap.py,
lines 44-60).  A coordinate is a `(latitude, longitude)` pair.  The
external `geopy.distance.geodesic(a, b).meters` call is the parameter
`dist`.  An empty coordinate list raises `ValueError("No coordinates
provided")`, embedded as `Except.error`. -/
def calculate_map_bounds (dist : ℚ × ℚ → ℚ × ℚ → ℚ) :
    List (ℚ × ℚ) → Except String ((ℚ × ℚ) × ℚ)
  | [] => Except.error "No coordinates provided"
  | c :: cs =>
    let min_lat := pyMin c.1 (cs.map Prod.fst)
    let max_lat := pyMax c.1 (cs.map Prod.fst)
    let min_lon := pyMin c.2 (cs.map Prod.snd)
    let max_lon := pyMax c.2 (cs.map Prod.snd)
    let center : ℚ × ℚ := ((min_lat + max_lat) / 2, (min_lon + max_lon) / 2)
    let radius := pyMax (dist center c) (cs.map (fun coord => dist center coord))
    Except.ok (center, radius)

/-- Errors raised by createmap.py that `main` catches: `FileNotFoundError`
and `ValueError` (src/createmap.py lines 216-218). -/
inductive Err where
  | fileNotFound (msg : String)
  | valueError (msg : String)
deriving DecidableEq

/-- A GPX document as consumed by `extract_coordinates`: tracks, each a
list of segments, each a list of `(latitude, longitude)` points. -/
structure GPX where
  tracks : List (List (List (ℚ × ℚ)))
deriving DecidableEq

/-- Outcome of looking up and parsing a GPX file path: the file may be
missing, present but malformed, or parsed into a `GPX` value.  This is the
model of the file system plus the external `gpxpy.parse`. -/
inductive ParseOutcome where
  | missing
  | malformed (msg : String)
  | parsed (g : GPX)

/-- Embedding of `GPXMapGenerator.parse_gpx_file` (src/createmap.py, lines
20-29): a missing path raises `FileNotFoundError`, a parse exception is
re-raised as `ValueError("Failed to parse GPX file: ...")`. -/
def parse_gpx_file (fs : String → ParseOutcome) (gpx_file_path : String) :
    Except Err GPX :=
  match fs gpx_file_path with
  | ParseOutcome.missing =>
      Except.error (Err.fileNotFound ("GPX file not found: " ++ gpx_file_path))
  | ParseOutcome.malformed msg =>
      Except.error (Err.valueError ("Failed to parse GPX file: " ++ msg))
  | ParseOutcome.parsed g => Except.ok g

/-- Embedding of `GPXMapGenerator.extract_coordinates` (src/createmap.py,
lines 31-42): the triple nested loop appends every point of every segment
of every track in order; an empty result raises `ValueError`. -/
def extract_coordinates (gpx : GPX) : Except Err (List (ℚ × ℚ)) :=
  let coordinates := (gpx.tracks.map List.flatten).flatten
  if coordinates.isEmpty then
    Except.error (Err.valueError "No coordinates found in GPX file")
  else
    Except.ok coordinates

/-- A single matplotlib `ax.plot` call as issued by createmap.py: x data,
y data, and the style keyword arguments given at the call site. -/
structure PlotCall where
  xs : List ℚ
  ys : List ℚ
  color : String
  linewidth : ℚ
  alpha : Option ℚ
  zorder : Option ℕ
deriving DecidableEq

/-- The matplotlib axes state touched by createmap.py: axis limits, the
plotted lines, and the presentation attributes set by `create_track_only`
(aspect, grid, labels, title). -/
structure Axes where
  xlims : Option (ℚ × ℚ)
  ylims : Option (ℚ × ℚ)
  lines : List PlotCall
  aspect : Option String
  gridOn : Bool
  gridAlpha : Option ℚ
  xlabel : Option String
  ylabel : Option String
  title : Option String
deriving DecidableEq

/-- A fresh axes as produced by `plt.subplots`. -/
def Axes.empty : Axes := ⟨none, none, [], none, false, none, none, none, none⟩

/-- Appending one `ax.plot` call to the axes. -/
def Axes.plot (ax : Axes) (xs ys : List ℚ) (color : String) (linewidth : ℚ)
    (alpha : Option ℚ) (zorder : Option ℕ) : Axes :=
  ⟨ax.xlims, ax.ylims, ax.lines ++ [⟨xs, ys, color, linewidth, alpha, zorder⟩],
   ax.aspect, ax.gridOn, ax.gridAlpha, ax.xlabel, ax.ylabel, ax.title⟩

/-- Embedding of `GPXMapGenerator.overlay_track` (src/createmap.py, lines
75-82): an empty coordinate list returns immediately, leaving the axes
untouched; otherwise a single `ax.plot(lons, lats, ...)` call is issued
with zorder 10. -/
def overlay_track (ax : Axes) (coordinates : List (ℚ × ℚ))
    (color : String) (linewidth : ℚ) (alpha : ℚ) : Axes :=
  match coordinates with
  | [] => ax
  | c :: cs =>
    Axes.plot ax ((c :: cs).map Prod.snd) ((c :: cs).map Prod.fst)
      color linewidth (some alpha) (some 10)

/-- `overlay_track` with the source's default keyword arguments:
color red, linewidth 3, alpha 0.8. -/
def overlay_track_default (ax : Axes) (coordinates : List (ℚ × ℚ)) : Axes :=
  overlay_track ax coordinates "red" 3 (8 / 10)

/-- Embedding of `GPXMapGenerator.create_base_map` (src/createmap.py, lines
62-73).  The external `prettymaps.plot` collaborator is the parameter
`render`: either an abstract drawing on the axes, or a raised exception.
On failure a warning is printed and the limits are set to a fixed 0.01
degree window around the center; the radius is passed only to prettymaps.
Returns the axes and the printed warnings. -/
def create_base_map (render : Except String (Axes → Axes))
    (center : ℚ × ℚ) (radius : ℚ) : Axes × List String :=
  match render with
  | Except.ok draw => (draw Axes.empty, [])
  | Except.error _ =>
      (⟨some (center.2 - 1 / 100, center.2 + 1 / 100),
        some (center.1 - 1 / 100, center.1 + 1 / 100),
        [], none, false, none, none, none, none⟩,
       ["Warning: Failed to create prettymaps background"])

/-- Splitting a character list on a separator character; mirrors Python
`str.split(sep)` for a single-character separator. -/
def splitOnChar (sep : Char) : List Char → List (List Char)
  | [] => [[]]
  | c :: cs =>
    if c = sep then
      [] :: splitOnChar sep cs
    else
      match splitOnChar sep cs with
      | [] => [[c]]
      | r :: rs => (c :: r) :: rs

/-- The final path component, Python `Path(p).name`: the text after the
last slash. -/
def path_basename (p : String) : String :=
  String.mk ((splitOnChar '/' p.toList).getLastD p.toList)

/-- Position of the dot introducing the suffix of a file name, following
Python pathlib: the last dot that is neither in first nor in last
position. -/
def lastDotIdx (cs : List Char) : Option ℕ :=
  (List.range cs.length).foldl
    (fun acc i =>
      if 0 < i ∧ i + 1 < cs.length ∧ cs.getD i ' ' = '.' then some i else acc)
    none

/-- Python `Path(p).stem`: the final component without its suffix. -/
def path_stem (p : String) : String :=
  let cs := (path_basename p).toList
  match lastDotIdx cs with
  | none => path_basename p
  | some i => String.mk (cs.take i)

/-- The directory part of a path with its trailing slash (empty for a bare
file name), so that Python `Path(p).with_name(n)` is `path_dirname p ++ n`. -/
def path_dirname (p : String) : String :=
  String.mk (((splitOnChar '/' p.toList).dropLast.map
    (fun part => part ++ ['/'])).flatten)

/-- The default output path of `create_map_from_gpx`:
`Path(p).with_suffix('').with_name(Path(p).stem + '_map.png')`. -/
def default_map_output (p : String) : String :=
  path_dirname p ++ path_stem p ++ "_map.png"

/-- The default output path of `create_track_only`:
`Path(p).with_suffix('').with_name(Path(p).stem + '_track.png')`. -/
def default_track_output (p : String) : String :=
  path_dirname p ++ path_stem p ++ "_track.png"

/-- The observable effects of one createmap.py run: the final axes state,
the warnings printed, and the files written by `plt.savefig`, in order. -/
structure RunOut where
  ax : Axes
  warnings : List String
  saved : List String
deriving DecidableEq

/-- Embedding of `GPXMapGenerator.create_map_from_gpx` (src/createmap.py,
lines 84-117): parse, extract, compute bounds, resolve the output path,
render the basemap inside try/except with the blank-canvas fallback on
failure, optionally overlay the track, then save.  Returns the effects
performed together with the result (the output path, or the raised error);
on an error the effects are exactly those performed before the raise. -/
def create_map_from_gpx (dist : ℚ × ℚ → ℚ × ℚ → ℚ)
    (fs : String → ParseOutcome) (render : Except String (Axes → Axes))
    (gpx_file_path : String) (overlayTrack : Bool)
    (output_path : Option String) : RunOut × Except Err String :=
  match parse_gpx_file fs gpx_file_path with
  | Except.error e => (⟨Axes.empty, [], []⟩, Except.error e)
  | Except.ok gpx =>
    match extract_coordinates gpx with
    | Except.error e => (⟨Axes.empty, [], []⟩, Except.error e)
    | Except.ok coordinates =>
      match calculate_map_bounds dist coordinates with
      | Except.error msg => (⟨Axes.empty, [], []⟩, Except.error (Err.valueError msg))
      | Except.ok (center, _radius) =>
        let outp := output_path.getD (default_map_output gpx_file_path)
        match render with
        | Except.ok draw =>
          let ax0 := draw Axes.empty
          let ax1 := if overlayTrack then overlay_track_default ax0 coordinates else ax0
          (⟨ax1, [], [outp]⟩, Except.ok outp)
        | Except.error _ =>
          let axf : Axes :=
            ⟨some (center.2 - 1 / 100, center.2 + 1 / 100),
             some (center.1 - 1 / 100, center.1 + 1 / 100),
             [], none, false, none, none, none, none⟩
          let ax1 := if overlayTrack then overlay_track_default axf coordinates else axf
          (⟨ax1, ["Warning: Failed to create prettymaps background"], [outp]⟩,
           Except.ok outp)

/-- Embedding of `GPXMapGenerator.create_track_only` (src/createmap.py,
lines 119-142): parse, extract, plot the bare track in red with
linewidth 2, set aspect/grid/labels/title, resolve the output path and
save. -/
def create_track_only (fs : String → ParseOutcome) (gpx_file_path : String)
    (output_path : Option String) : RunOut × Except Err String :=
  match parse_gpx_file fs gpx_file_path with
  | Except.error e => (⟨Axes.empty, [], []⟩, Except.error e)
  | Except.ok gpx =>
    match extract_coordinates gpx with
    | Except.error e => (⟨Axes.empty, [], []⟩, Except.error e)
    | Except.ok coordinates =>
      let ax0 := Axes.plot Axes.empty (coordinates.map Prod.snd)
        (coordinates.map Prod.fst) "red" 2 none none
      let ax1 : Axes := ⟨ax0.xlims, ax0.ylims, ax0.lines, some "equal", true,
        some (3 / 10), some "Longitude", some "Latitude", some "GPS Track"⟩
      let outp := output_path.getD (default_track_output gpx_file_path)
      (⟨ax1, [], [outp]⟩, Except.ok outp)

/-- The parsed CLI arguments of `main` (src/createmap.py, lines 145-199).
`dpi` and `size` only set the figure resolution and do not influence the
modelled behavior. -/
structure Args where
  gpx_file_path : String
  no_overlay : Bool
  track_only : Bool
  output : Option String
  dpi : ℕ
  size : ℕ × ℕ

/-- Embedding of `main` (src/createmap.py, lines 201-223): dispatch on
`--track-only`, return exit code 1 when a `FileNotFoundError` or
`ValueError` (or any other exception) is raised, 0 on success.  Returns
the exit code together with the run effects. -/
def mainRun (dist : ℚ × ℚ → ℚ × ℚ → ℚ) (fs : String → ParseOutcome)
    (render : Except String (Axes → Axes)) (args : Args) : ℕ × RunOut :=
  if args.track_only then
    match create_track_only fs args.gpx_file_path args.output with
    | (ro, Except.ok _) => (0, ro)
    | (ro, Except.error _) => (1, ro)
  else
    match create_map_from_gpx dist fs render args.gpx_file_path
        (!args.no_overlay) args.output with
    | (ro, Except.ok _) => (0, ro)
    | (ro, Except.error _) => (1, ro)

/-- One RGBA pixel with exact rational channel values. -/
structure RGBA where
  r : ℚ
  g : ℚ
  b : ℚ
  a : ℚ
deriving DecidableEq

/-- A raster image: width, height and a pixel function. -/
structure Raster where
  width : ℕ
  height : ℕ
  pix : ℕ → ℕ → RGBA

/-- Per-channel linear interpolation: out = p1 * (1 - w) + p2 * w. -/
def blendRGBA (p1 p2 : RGBA) (w : ℚ) : RGBA :=
  ⟨p1.r * (1 - w) + p2.r * w, p1.g * (1 - w) + p2.g * w,
   p1.b * (1 - w) + p2.b * w, p1.a * (1 - w) + p2.a * w⟩

/-- Model of the external `PIL.Image.blend(im1, im2, alpha)` by its
documented contract: the images must have the same size, and the output is
`im1 * (1 - alpha) + im2 * alpha`, computed independently on each of the 4
channels.  The byte quantization performed by the library is outside the
model. -/
def Image.blend (im1 im2 : Raster) (alpha : ℚ) : Option Raster :=
  if im1.width = im2.width ∧ im1.height = im2.height then
    some ⟨im1.width, im1.height,
      fun x y => blendRGBA (im1.pix x y) (im2.pix x y) alpha⟩
  else
    none

/-- Contract of PIL's `Image.resize`: the result has exactly the requested
width and height.  The resampled pixel values themselves (LANCZOS) are left
abstract. -/
def ResizeContract (resize : Raster → ℕ → ℕ → Raster) : Prop :=
  ∀ im w h, (resize im w h).width = w ∧ (resize im w h).height = h

/-- Embedding of `overlay_images` (src/overlay.py, lines 3-15): both images
are opened and converted to RGBA (rasters are RGBA already in the model),
the track image is resized to the map image's size with LANCZOS (the
`resize` collaborator), and the two are blended with `Image.blend`.
Writing the result to the output path is outside the model. -/
def overlay_images (resize : Raster → ℕ → ℕ → Raster)
    (map_image track_image : Raster) (alpha : ℚ) : Option Raster :=
  let track_resized := resize track_image map_image.width map_image.height
  Image.blend map_image track_resized alpha

/-- `overlay_images` at the source's default alpha of 0.3. -/
def overlay_images_default (resize : Raster → ℕ → ℕ → Raster)
    (map_image track_image : Raster) : Option Raster :=
  overlay_images resize map_image track_image (3 / 10)

/-- A trivial resampler satisfying the PIL resize contract, used to
instantiate the abstract collaborator on concrete inputs. -/
def nearestResize : Raster → ℕ → ℕ → Raster :=
  fun im w h => ⟨w, h, fun _ _ => im.pix 0 0⟩

/-- A concrete 1 by 1 reference raster. -/
def rasterA : Raster := ⟨1, 1, fun _ _ => ⟨1, 2, 3, 4⟩⟩

/-- A concrete 2 by 3 overlay raster of a different size. -/
def rasterB : Raster := ⟨2, 3, fun _ _ => ⟨5, 6, 7, 8⟩⟩

/-- A concrete squared-euclidean distance used to instantiate the abstract
geodesic collaborator on concrete inputs (zero between equal points). -/
def sqDist : ℚ × ℚ → ℚ × ℚ → ℚ :=
  fun a b => (a.1 - b.1) ^ 2 + (a.2 - b.2) ^ 2

/-- A concrete one-track, one-segment, two-point GPX document. -/
def gpxTwoPoints : GPX := ⟨[[[(40, -105), (41, -104)]]]⟩

/- ### Theorems -/

/-- Helper: the Python-style fold of `min` stays inside the list it folds
over (head included). -/
theorem pyMin_mem (x : ℚ) (xs : List ℚ) : pyMin x xs ∈ x :: xs := by
  induction xs generalizing x with
  | nil => simp [pyMin]
  | cons y ys ih =>
      have h := ih (min x y)
      simp only [pyMin, List.foldl_cons]
      simp only [pyMin] at h
      rcases List.mem_cons.mp h with h | h
      · rcases min_choice x y with hm | hm
        · rw [h, hm]; exact List.mem_cons_self _ _
        · rw [h, hm]; exact List.mem_cons_of_mem _ (List.mem_cons_self _ _)
      · exact List.mem_cons_of_mem _ (List.mem_cons_of_mem _ h)

/-- Helper: the Python-style fold of `min` is a lower bound of the list it
folds over (head included). -/
theorem pyMin_le (x : ℚ) (xs : List ℚ) : ∀ y ∈ x :: xs, pyMin x xs ≤ y := by
  induction xs generalizing x with
  | nil => simp [pyMin]
  | cons y ys ih =>
      intro z hz
      simp only [List.mem_cons] at hz
      have h := ih (min x y)
      simp only [pyMin, List.foldl_cons] at h ⊢
      rcases hz with rfl | rfl | hz
      · exact le_trans (h _ (List.mem_cons_self _ _)) (min_le_left _ _)
      · exact le_trans (h _ (List.mem_cons_self _ _)) (min_le_right _ _)
      · exact h _ (List.mem_cons_of_mem _ hz)

/-- Helper: the Python-style fold of `max` stays inside the list it folds
over (head included). -/
theorem pyMax_mem (x : ℚ) (xs : List ℚ) : pyMax x xs ∈ x :: xs := by
  induction xs generalizing x with
  | nil => simp [pyMax]
  | cons y ys ih =>
      have h := ih (max x y)
      simp only [pyMax, List.foldl_cons]
      simp only [pyMax] at h
      rcases List.mem_cons.mp h with h | h
      · rcases max_choice x y with hm | hm
        · rw [h, hm]; exact List.mem_cons_self _ _
        · rw [h, hm]; exact List.mem_cons_of_mem _ (List.mem_cons_self _ _)
      · exact List.mem_cons_of_mem _ (List.mem_cons_of_mem _ h)

/-- Helper: the Python-style fold of `max` is an upper bound of the list it
folds over (head included). -/
theorem le_pyMax (x : ℚ) (xs : List ℚ) : ∀ y ∈ x :: xs, y ≤ pyMax x xs := by
  induction xs generalizing x with
  | nil => simp [pyMax]
  | cons y ys ih =>
      intro z hz
      simp only [List.mem_cons] at hz
      have h := ih (max x y)
      simp only [pyMax, List.foldl_cons] at h ⊢
      rcases hz with rfl | rfl | hz
      · exact le_trans (le_max_left _ _) (h _ (List.mem_cons_self _ _))
      · exact le_trans (le_max_right _ _) (h _ (List.mem_cons_self _ _))
      · exact h _ (List.mem_cons_of_mem _ hz)

/-- C1: for every non-empty list of points, `calculate_map_bounds` returns a
center whose latitude is (min latitude + max latitude)/2 and whose longitude
is (min longitude + max longitude)/2 over all points, and a radius equal to
the maximum over all points of the geodesic distance (the `dist` collaborator)
from that center to the point. -/
theorem calculate_map_bounds_spec (dist : ℚ × ℚ → ℚ × ℚ → ℚ)
    (coords : List (ℚ × ℚ)) (h : coords ≠ []) :
    ∃ center radius,
      calculate_map_bounds dist coords = Except.ok (center, radius) ∧
      (∃ mla ∈ coords.map Prod.fst, (∀ x ∈ coords.map Prod.fst, mla ≤ x) ∧
       ∃ Mla ∈ coords.map Prod.fst, (∀ x ∈ coords.map Prod.fst, x ≤ Mla) ∧
        center.1 = (mla + Mla) / 2) ∧
      (∃ mlo ∈ coords.map Prod.snd, (∀ x ∈ coords.map Prod.snd, mlo ≤ x) ∧
       ∃ Mlo ∈ coords.map Prod.snd, (∀ x ∈ coords.map Prod.snd, x ≤ Mlo) ∧
        center.2 = (mlo + Mlo) / 2) ∧
      radius ∈ coords.map (fun p => dist center p) ∧
      (∀ d ∈ coords.map (fun p => dist center p), d ≤ radius) := by
  obtain ⟨c, cs, rfl⟩ := List.exists_cons_of_ne_nil h
  simp only [calculate_map_bounds, List.map_cons]
  refine ⟨_, _, rfl,
    ⟨pyMin c.1 (cs.map Prod.fst), pyMin_mem _ _, fun x hx => pyMin_le _ _ x hx,
     pyMax c.1 (cs.map Prod.fst), pyMax_mem _ _, fun x hx => le_pyMax _ _ x hx, rfl⟩,
    ⟨pyMin c.2 (cs.map Prod.snd), pyMin_mem _ _, fun x hx => pyMin_le _ _ x hx,
     pyMax c.2 (cs.map Prod.snd), pyMax_mem _ _, fun x hx => le_pyMax _ _ x hx, rfl⟩,
    pyMax_mem _ _, fun d hd => le_pyMax _ _ d hd⟩

/-- Witness for C1 at a concrete two-point track and a taxicab distance. -/
theorem calculate_map_bounds_spec_witness :
    ∃ center radius,
      calculate_map_bounds (fun a b => |a.1 - b.1| + |a.2 - b.2|)
        [((40 : ℚ), (-105 : ℚ)), ((41 : ℚ), (-104 : ℚ))] = Except.ok (center, radius) ∧
      (∃ mla ∈ [((40 : ℚ), (-105 : ℚ)), ((41 : ℚ), (-104 : ℚ))].map Prod.fst,
        (∀ x ∈ [((40 : ℚ), (-105 : ℚ)), ((41 : ℚ), (-104 : ℚ))].map Prod.fst, mla ≤ x) ∧
       ∃ Mla ∈ [((40 : ℚ), (-105 : ℚ)), ((41 : ℚ), (-104 : ℚ))].map Prod.fst,
        (∀ x ∈ [((40 : ℚ), (-105 : ℚ)), ((41 : ℚ), (-104 : ℚ))].map Prod.fst, x ≤ Mla) ∧
        center.1 = (mla + Mla) / 2) ∧
      (∃ mlo ∈ [((40 : ℚ), (-105 : ℚ)), ((41 : ℚ), (-104 : ℚ))].map Prod.snd,
        (∀ x ∈ [((40 : ℚ), (-105 : ℚ)), ((41 : ℚ), (-104 : ℚ))].map Prod.snd, mlo ≤ x) ∧
       ∃ Mlo ∈ [((40 : ℚ), (-105 : ℚ)), ((41 : ℚ), (-104 : ℚ))].map Prod.snd,
        (∀ x ∈ [((40 : ℚ), (-105 : ℚ)), ((41 : ℚ), (-104 : ℚ))].map Prod.snd, x ≤ Mlo) ∧
        center.2 = (mlo + Mlo) / 2) ∧
      radius ∈ [((40 : ℚ), (-105 : ℚ)), ((41 : ℚ), (-104 : ℚ))].map
        (fun p => |center.1 - p.1| + |center.2 - p.2|) ∧
      (∀ d ∈ [((40 : ℚ), (-105 : ℚ)), ((41 : ℚ), (-104 : ℚ))].map
        (fun p => |center.1 - p.1| + |center.2 - p.2|), d ≤ radius) :=
  calculate_map_bounds_spec (fun a b => |a.1 - b.1| + |a.2 - b.2|)
    [((40 : ℚ), (-105 : ℚ)), ((41 : ℚ), (-104 : ℚ))] (by decide)

/-- C3: `calculate_map_bounds` applied to an empty point sequence fails with
the empty-track `ValueError` (an `Except.error`, not a degenerate success
value). -/
theorem calculate_map_bounds_empty (dist : ℚ × ℚ → ℚ × ℚ → ℚ) :
    calculate_map_bounds dist [] = Except.error "No coordinates provided" :=
  rfl

/-- C6: for a track consisting of exactly one point `P`, the computed center
is `P` itself and the radius is the distance from `P` to itself, which the
geodesic collaborator reports as 0. -/
theorem calculate_map_bounds_single (dist : ℚ × ℚ → ℚ × ℚ → ℚ) (P : ℚ × ℚ)
    (h0 : dist P P = 0) :
    calculate_map_bounds dist [P] = Except.ok (P, 0) := by
  have h1 : (P.1 + P.1) / 2 = P.1 := by ring
  have h2 : (P.2 + P.2) / 2 = P.2 := by ring
  simp only [calculate_map_bounds, List.map_nil, pyMin, pyMax, List.foldl_nil,
    h1, h2, Prod.mk.eta, h0]

/-- Witness for C6 at a concrete point, with the taxicab distance (which is
zero between a point and itself). -/
theorem calculate_map_bounds_single_witness :
    calculate_map_bounds (fun a b => |a.1 - b.1| + |a.2 - b.2|)
      [((40 : ℚ), (-105 : ℚ))] = Except.ok (((40 : ℚ), (-105 : ℚ)), 0) :=
  calculate_map_bounds_single _ _ (by norm_num)

/-- Helper: blending with weight 0 returns the first pixel unchanged. -/
theorem blendRGBA_zero (p q : RGBA) : blendRGBA p q 0 = p := by
  cases p; simp [blendRGBA]

/-- Helper: blending with weight 1 returns the second pixel unchanged. -/
theorem blendRGBA_one (p q : RGBA) : blendRGBA p q 1 = q := by
  cases q; simp [blendRGBA]

/-- C2: for every pair of input rasters and every weight in [0,1], each
pixel of the blend output equals reference * (1 - weight) +
overlay * weight computed independently on each of the 4 RGBA channels,
with the overlay first resampled to the reference's size, and the weight
defaults to 0.3 when not given. -/
theorem overlay_images_pixel_formula (resize : Raster → ℕ → ℕ → Raster)
    (hres : ResizeContract resize) (map_image track_image : Raster) (w : ℚ)
    (hw : 0 ≤ w ∧ w ≤ 1) :
    ∃ out, overlay_images resize map_image track_image w = some out ∧
      (∀ x y,
        (out.pix x y).r = (map_image.pix x y).r * (1 - w) +
          ((resize track_image map_image.width map_image.height).pix x y).r * w ∧
        (out.pix x y).g = (map_image.pix x y).g * (1 - w) +
          ((resize track_image map_image.width map_image.height).pix x y).g * w ∧
        (out.pix x y).b = (map_image.pix x y).b * (1 - w) +
          ((resize track_image map_image.width map_image.height).pix x y).b * w ∧
        (out.pix x y).a = (map_image.pix x y).a * (1 - w) +
          ((resize track_image map_image.width map_image.height).pix x y).a * w) ∧
      overlay_images_default resize map_image track_image =
        overlay_images resize map_image track_image (3 / 10) := by
  have hsz := hres track_image map_image.width map_image.height
  refine ⟨⟨map_image.width, map_image.height,
    fun x y => blendRGBA (map_image.pix x y)
      ((resize track_image map_image.width map_image.height).pix x y) w⟩, ?_, ?_, rfl⟩
  · simp only [overlay_images, Image.blend]
    rw [if_pos ⟨hsz.1.symm, hsz.2.symm⟩]
  · intro x y
    exact ⟨rfl, rfl, rfl, rfl⟩

/-- Witness for C2 at concrete rasters of different sizes, a concrete
resampler and weight 1/2. -/
theorem overlay_images_pixel_formula_witness :
    (0 ≤ (1 : ℚ) / 2 ∧ (1 : ℚ) / 2 ≤ 1) ∧
    ∃ out, overlay_images nearestResize rasterA rasterB (1 / 2) = some out ∧
      (∀ x y,
        (out.pix x y).r = (rasterA.pix x y).r * (1 - 1 / 2) +
          ((nearestResize rasterB rasterA.width rasterA.height).pix x y).r * (1 / 2) ∧
        (out.pix x y).g = (rasterA.pix x y).g * (1 - 1 / 2) +
          ((nearestResize rasterB rasterA.width rasterA.height).pix x y).g * (1 / 2) ∧
        (out.pix x y).b = (rasterA.pix x y).b * (1 - 1 / 2) +
          ((nearestResize rasterB rasterA.width rasterA.height).pix x y).b * (1 / 2) ∧
        (out.pix x y).a = (rasterA.pix x y).a * (1 - 1 / 2) +
          ((nearestResize rasterB rasterA.width rasterA.height).pix x y).a * (1 / 2)) ∧
      overlay_images_default nearestResize rasterA rasterB =
        overlay_images nearestResize rasterA rasterB (3 / 10) :=
  ⟨by norm_num,
   overlay_images_pixel_formula nearestResize (fun _ _ _ => ⟨rfl, rfl⟩)
     rasterA rasterB (1 / 2) (by norm_num)⟩

/-- C4: blending with weight 0 returns a raster pixel-identical to the
reference raster (with the reference's dimensions), and blending with
weight 1 returns the overlay raster resampled to the reference's
dimensions. -/
theorem overlay_images_weight_zero_one (resize : Raster → ℕ → ℕ → Raster)
    (hres : ResizeContract resize) (map_image track_image : Raster) :
    ∃ o0 o1,
      overlay_images resize map_image track_image 0 = some o0 ∧
      o0.width = map_image.width ∧ o0.height = map_image.height ∧
      (∀ x y, o0.pix x y = map_image.pix x y) ∧
      overlay_images resize map_image track_image 1 = some o1 ∧
      o1.width = map_image.width ∧ o1.height = map_image.height ∧
      (∀ x y, o1.pix x y =
        (resize track_image map_image.width map_image.height).pix x y) := by
  have hsz := hres track_image map_image.width map_image.height
  refine ⟨⟨map_image.width, map_image.height,
      fun x y => blendRGBA (map_image.pix x y)
        ((resize track_image map_image.width map_image.height).pix x y) 0⟩,
    ⟨map_image.width, map_image.height,
      fun x y => blendRGBA (map_image.pix x y)
        ((resize track_image map_image.width map_image.height).pix x y) 1⟩,
    ?_, rfl, rfl, ?_, ?_, rfl, rfl, ?_⟩
  · simp only [overlay_images, Image.blend]
    rw [if_pos ⟨hsz.1.symm, hsz.2.symm⟩]
  · intro x y; exact blendRGBA_zero _ _
  · simp only [overlay_images, Image.blend]
    rw [if_pos ⟨hsz.1.symm, hsz.2.symm⟩]
  · intro x y; exact blendRGBA_one _ _

/-- Witness for C4 at concrete rasters of different sizes and a concrete
resampler. -/
theorem overlay_images_weight_zero_one_witness :
    ∃ o0 o1,
      overlay_images nearestResize rasterA rasterB 0 = some o0 ∧
      o0.width = rasterA.width ∧ o0.height = rasterA.height ∧
      (∀ x y, o0.pix x y = rasterA.pix x y) ∧
      overlay_images nearestResize rasterA rasterB 1 = some o1 ∧
      o1.width = rasterA.width ∧ o1.height = rasterA.height ∧
      (∀ x y, o1.pix x y =
        (nearestResize rasterB rasterA.width rasterA.height).pix x y) :=
  overlay_images_weight_zero_one nearestResize (fun _ _ _ => ⟨rfl, rfl⟩)
    rasterA rasterB

/-- C7: for every reference and overlay raster, whatever the overlay's
original width and height, the blend output has exactly the reference
raster's width and height. -/
theorem overlay_images_output_size (resize : Raster → ℕ → ℕ → Raster)
    (hres : ResizeContract resize) (map_image track_image : Raster) (w : ℚ) :
    ∃ out, overlay_images resize map_image track_image w = some out ∧
      out.width = map_image.width ∧ out.height = map_image.height := by
  have hsz := hres track_image map_image.width map_image.height
  refine ⟨⟨map_image.width, map_image.height,
    fun x y => blendRGBA (map_image.pix x y)
      ((resize track_image map_image.width map_image.height).pix x y) w⟩,
    ?_, rfl, rfl⟩
  simp only [overlay_images, Image.blend]
  rw [if_pos ⟨hsz.1.symm, hsz.2.symm⟩]

/-- Witness for C7 at concrete rasters whose sizes differ. -/
theorem overlay_images_output_size_witness :
    ∃ out, overlay_images nearestResize rasterA rasterB (3 / 10) = some out ∧
      out.width = rasterA.width ∧ out.height = rasterA.height :=
  overlay_images_output_size nearestResize (fun _ _ _ => ⟨rfl, rfl⟩)
    rasterA rasterB (3 / 10)

/-- Helper: drawing the track never changes the x limits of the axes. -/
theorem overlay_track_xlims (ax : Axes) (cs : List (ℚ × ℚ)) (c : String)
    (lw al : ℚ) : (overlay_track ax cs c lw al).xlims = ax.xlims := by
  cases cs <;> rfl

/-- Helper: drawing the track never changes the y limits of the axes. -/
theorem overlay_track_ylims (ax : Axes) (cs : List (ℚ × ℚ)) (c : String)
    (lw al : ℚ) : (overlay_track ax cs c lw al).ylims = ax.ylims := by
  cases cs <;> rfl

/-- C5: when the basemap renderer fails during map creation, the pipeline
does not abort: it prints a warning, falls back to a canvas whose visible
extent is the fixed 0.01 degree window around the center (independent of
the computed radius), still saves an output image, and reports success to
the caller. -/
theorem create_map_render_failure_recovered (dist : ℚ × ℚ → ℚ × ℚ → ℚ)
    (fs : String → ParseOutcome) (emsg : String) (p : String) (g : GPX)
    (coords : List (ℚ × ℚ)) (center : ℚ × ℚ) (radius : ℚ) (ov : Bool)
    (outOpt : Option String)
    (hfs : fs p = ParseOutcome.parsed g)
    (hex : extract_coordinates g = Except.ok coords)
    (hb : calculate_map_bounds dist coords = Except.ok (center, radius)) :
    ∃ ro : RunOut,
      create_map_from_gpx dist fs (Except.error emsg) p ov outOpt =
        (ro, Except.ok (outOpt.getD (default_map_output p))) ∧
      ro.warnings = ["Warning: Failed to create prettymaps background"] ∧
      ro.saved = [outOpt.getD (default_map_output p)] ∧
      ro.ax.xlims = some (center.2 - 1 / 100, center.2 + 1 / 100) ∧
      ro.ax.ylims = some (center.1 - 1 / 100, center.1 + 1 / 100) := by
  simp only [create_map_from_gpx, parse_gpx_file, hfs, hex, hb]
  refine ⟨_, rfl, rfl, rfl, ?_, ?_⟩
  · cases ov <;> simp [overlay_track_default, overlay_track_xlims]
  · cases ov <;> simp [overlay_track_default, overlay_track_ylims]

/-- Witness for C5: a concrete two-point track, a failing renderer, and
the concrete center (40.5, -104.5) computed by the bounds step. -/
theorem create_map_render_failure_recovered_witness :
    ∃ ro : RunOut,
      create_map_from_gpx sqDist (fun _ => ParseOutcome.parsed gpxTwoPoints)
          (Except.error "tile server down") "run.gpx" true none =
        (ro, Except.ok (Option.getD none (default_map_output "run.gpx"))) ∧
      ro.warnings = ["Warning: Failed to create prettymaps background"] ∧
      ro.saved = [Option.getD none (default_map_output "run.gpx")] ∧
      ro.ax.xlims = some ((-209 : ℚ) / 2 - 1 / 100, (-209 : ℚ) / 2 + 1 / 100) ∧
      ro.ax.ylims = some ((81 : ℚ) / 2 - 1 / 100, (81 : ℚ) / 2 + 1 / 100) :=
  create_map_render_failure_recovered sqDist
    (fun _ => ParseOutcome.parsed gpxTwoPoints) "tile server down" "run.gpx"
    gpxTwoPoints [(40, -105), (41, -104)] ((81 : ℚ) / 2, (-209 : ℚ) / 2)
    (1 / 2) true none rfl rfl
    (by norm_num [calculate_map_bounds, pyMin, pyMax, sqDist])

/-- C8: with `--track-only` and no `--output` override, a valid track file
yields exit code 0 and exactly one saved file, named stem plus
`_track.png`; a nonexistent file yields exit code 1 and no saved file. -/
theorem main_track_only_cli (dist : ℚ × ℚ → ℚ × ℚ → ℚ)
    (render : Except String (Axes → Axes)) (args : Args)
    (htr : args.track_only = true) (hout : args.output = none) :
    (∀ fs g coords, fs args.gpx_file_path = ParseOutcome.parsed g →
        extract_coordinates g = Except.ok coords →
      (mainRun dist fs render args).1 = 0 ∧
      (mainRun dist fs render args).2.saved =
        [default_track_output args.gpx_file_path]) ∧
    (∀ fs, fs args.gpx_file_path = ParseOutcome.missing →
      (mainRun dist fs render args).1 = 1 ∧
      (mainRun dist fs render args).2.saved = []) := by
  constructor
  · intro fs g coords hfs hex
    simp [mainRun, htr, hout, create_track_only, parse_gpx_file, hfs, hex]
  · intro fs hfs
    simp [mainRun, htr, hout, create_track_only, parse_gpx_file, hfs]

/-- Witness for C8: a concrete two-point GPX file named track.gpx gives
exit 0 and the single output file track_track.png; a missing file gives
exit 1 and no output. -/
theorem main_track_only_cli_witness :
    ((mainRun sqDist (fun _ => ParseOutcome.parsed gpxTwoPoints)
        (Except.error "down") ⟨"track.gpx", false, true, none, 300, (10, 10)⟩).1 = 0 ∧
     (mainRun sqDist (fun _ => ParseOutcome.parsed gpxTwoPoints)
        (Except.error "down")
        ⟨"track.gpx", false, true, none, 300, (10, 10)⟩).2.saved =
       ["track_track.png"]) ∧
    ((mainRun sqDist (fun _ => ParseOutcome.missing) (Except.error "down")
        ⟨"track.gpx", false, true, none, 300, (10, 10)⟩).1 = 1 ∧
     (mainRun sqDist (fun _ => ParseOutcome.missing) (Except.error "down")
        ⟨"track.gpx", false, true, none, 300, (10, 10)⟩).2.saved = []) := by
  have h := main_track_only_cli sqDist (Except.error "down")
    ⟨"track.gpx", false, true, none, 300, (10, 10)⟩ rfl rfl
  have h1 := h.1 (fun _ => ParseOutcome.parsed gpxTwoPoints) gpxTwoPoints
    [(40, -105), (41, -104)] rfl rfl
  have h2 := h.2 (fun _ => ParseOutcome.missing) rfl
  exact ⟨⟨h1.1, h1.2.trans (by decide)⟩, h2⟩

/-- Helper: when `create_track_only` raises, it has saved nothing. -/
theorem create_track_only_error_saved (fs : String → ParseOutcome)
    (p : String) (o : Option String) (e : Err)
    (h : (create_track_only fs p o).2 = Except.error e) :
    (create_track_only fs p o).1.saved = [] := by
  cases hfs : fs p with
  | missing => simp [create_track_only, parse_gpx_file, hfs]
  | malformed m => simp [create_track_only, parse_gpx_file, hfs]
  | parsed g =>
    cases hex : extract_coordinates g with
    | error e2 => simp [create_track_only, parse_gpx_file, hfs, hex]
    | ok coords =>
      simp [create_track_only, parse_gpx_file, hfs, hex] at h

/-- Helper: when `create_map_from_gpx` raises, it has saved nothing. -/
theorem create_map_from_gpx_error_saved (dist : ℚ × ℚ → ℚ × ℚ → ℚ)
    (fs : String → ParseOutcome) (render : Except String (Axes → Axes))
    (p : String) (ov : Bool) (o : Option String) (e : Err)
    (h : (create_map_from_gpx dist fs render p ov o).2 = Except.error e) :
    (create_map_from_gpx dist fs render p ov o).1.saved = [] := by
  cases hfs : fs p with
  | missing => simp [create_map_from_gpx, parse_gpx_file, hfs]
  | malformed m => simp [create_map_from_gpx, parse_gpx_file, hfs]
  | parsed g =>
    cases hex : extract_coordinates g with
    | error e2 => simp [create_map_from_gpx, parse_gpx_file, hfs, hex]
    | ok coords =>
      cases hb : calculate_map_bounds dist coords with
      | error m => simp [create_map_from_gpx, parse_gpx_file, hfs, hex, hb]
      | ok cr =>
        obtain ⟨center, radius⟩ := cr
        cases render with
        | ok draw =>
          simp [create_map_from_gpx, parse_gpx_file, hfs, hex, hb] at h
        | error m =>
          simp [create_map_from_gpx, parse_gpx_file, hfs, hex, hb] at h

/-- C9: every run of `main` that fails (exit code 1: missing file, parse
failure, empty track) has written no output file: the failure always
occurs strictly before the save step. -/
theorem pipeline_error_before_save (dist : ℚ × ℚ → ℚ × ℚ → ℚ)
    (fs : String → ParseOutcome) (render : Except String (Axes → Axes))
    (args : Args) (h : (mainRun dist fs render args).1 = 1) :
    (mainRun dist fs render args).2.saved = [] := by
  cases htr : args.track_only with
  | true =>
    rcases hc : create_track_only fs args.gpx_file_path args.output with ⟨ro, res⟩
    cases res with
    | ok v =>
      exfalso
      simp [mainRun, htr, hc] at h
    | error e =>
      have h3 := create_track_only_error_saved fs args.gpx_file_path args.output e
        (by rw [hc])
      rw [hc] at h3
      simp [mainRun, htr, hc]
      exact h3
  | false =>
    rcases hc : create_map_from_gpx dist fs render args.gpx_file_path
        (!args.no_overlay) args.output with ⟨ro, res⟩
    cases res with
    | ok v =>
      exfalso
      simp [mainRun, htr, hc] at h
    | error e =>
      have h3 := create_map_from_gpx_error_saved dist fs render args.gpx_file_path
        (!args.no_overlay) args.output e (by rw [hc])
      rw [hc] at h3
      simp [mainRun, htr, hc]
      exact h3

/-- Witness for C9: a run on a missing file exits with code 1 and has
saved nothing. -/
theorem pipeline_error_before_save_witness :
    (mainRun sqDist (fun _ => ParseOutcome.missing) (Except.error "down")
      ⟨"run.gpx", false, false, none, 300, (10, 10)⟩).2.saved = [] :=
  pipeline_error_before_save sqDist (fun _ => ParseOutcome.missing)
    (Except.error "down") ⟨"run.gpx", false, false, none, 300, (10, 10)⟩
    (by decide)

/-- C10: `overlay_track` on an empty coordinate list is a silent no-op: it
returns with the axes unchanged (drawing nothing), whereas
`calculate_map_bounds` treats an empty track as an error, not a success. -/
theorem overlay_track_empty_silent (ax : Axes) (color : String)
    (linewidth alpha : ℚ) (dist : ℚ × ℚ → ℚ × ℚ → ℚ) :
    overlay_track ax [] color linewidth alpha = ax ∧
    (calculate_map_bounds dist []).isOk = false :=
  ⟨rfl, rfl⟩
